import Mathlib

/-!
Shallow embedding of the yt-mp3 HTTP service (src/app.py): the request
validator, the conversion orchestrator with its bounded retry loop, the
filename sanitizer, the deferred file reaper, and the download endpoint.
External collaborators (the yt-dlp media fetcher, the HTTP host, the
clock) are passed in as explicit parameters; machine side effects
(invocation counts, sleeps, scheduled deletions) are recorded in a trace.
-/

namespace YtMp3

/-! ### Constants (src/app.py lines 24-27, 149-150) -/

def DOWNLOAD_FOLDER : String := "downloads"

def MAX_DURATION_SECONDS : Int := 150 * 60

def MAX_FILENAME_LENGTH : Nat := 128

def maxRetries : Nat := 3

def initialRetryDelay : Nat := 5

/-! ### Basic string helpers (shared by the embedding) -/

/-- Does the second list start with the first one (pattern, then text)? -/
def startsWithChars : List Char → List Char → Bool
  | [], _ => true
  | _ :: _, [] => false
  | p :: ps, c :: cs => p == c && startsWithChars ps cs

/-- Does the list contain the first list as a contiguous sublist? -/
def hasSubChars (needle : List Char) : List Char → Bool
  | [] => needle.isEmpty
  | c :: cs => startsWithChars needle (c :: cs) || hasSubChars needle cs

/-- Python `needle in haystack` on strings. -/
def containsSub (haystack needle : String) : Bool :=
  hasSubChars needle.data haystack.data

/-- Python `str.lower` restricted to ASCII letters (the only case the
code exercises: error-message signatures and the format field). -/
def pyLower (s : String) : String :=
  String.mk (s.data.map Char.toLower)

/-- Python `str.rstrip("/")` as used on `request.host_url`. -/
def rstripSlash (s : String) : String :=
  String.mk ((s.data.reverse.dropWhile (fun c => c == '/')).reverse)

/-- Python truthiness for an optional string: `None` and `""` are falsy. -/
def pyFalsyStr : Option String → Bool
  | none => true
  | some s => s == ""

/-! ### sanitize_filename (src/app.py lines 67-69) -/

/-- The character class of the regex in `sanitize_filename`:
one of the characters backslash / * ? : " < > | . -/
def badFilenameChar (c : Char) : Bool :=
  c == '\\' || c == '/' || c == '*' || c == '?' || c == ':' ||
  c == '"' || c == '<' || c == '>' || c == '|'

/-- `sanitize_filename(title)`: replace every character of the class
above with an underscore, then keep the first 128 characters. -/
def sanitize_filename (title : String) : String :=
  String.mk (((title.data.map (fun c => if badFilenameChar c then '_' else c)).take
    MAX_FILENAME_LENGTH))

/-! ### URL validation (src/app.py line 142)

The regex is anchored at the start:
`https?://(www\.)?(youtube\.com|youtu\.be)/` ; its language is exactly
the strings starting with one of the eight concrete prefixes below. -/

def youtubeUrlPrefixes : List String :=
  ["http://youtube.com/", "http://youtu.be/",
   "http://www.youtube.com/", "http://www.youtu.be/",
   "https://youtube.com/", "https://youtu.be/",
   "https://www.youtube.com/", "https://www.youtu.be/"]

/-- `re.match` with the YouTube URL pattern of the convert handler. -/
def matchesYoutubeUrl (url : String) : Bool :=
  youtubeUrlPrefixes.any (fun p => startsWithChars p.data url.data)

/-! ### werkzeug's secure_filename

Model of the third-party `werkzeug.utils.secure_filename` on a POSIX
system, faithful for filenames whose non-ASCII characters have no ASCII
NFKD decomposition: drop non-ASCII characters, turn the path separator
into a space, join the whitespace-separated words with underscores,
delete every character outside `A-Z a-z 0-9 _ . -`, and strip leading
and trailing dots and underscores. -/

/-- Python `str.split()` whitespace. -/
def pyWhitespace (c : Char) : Bool :=
  c == ' ' || c == '\t' || c == '\n' || c == '\r' || c == '\x0b' || c == '\x0c'

/-- Python `str.split()` on a character list: whitespace-separated words,
empties dropped.  The second argument accumulates the current word
reversed. -/
def splitWords : List Char → List Char → List (List Char)
  | [], acc => if acc.isEmpty then [] else [acc.reverse]
  | c :: cs, acc =>
    if pyWhitespace c then
      if acc.isEmpty then splitWords cs [] else acc.reverse :: splitWords cs []
    else splitWords cs (c :: acc)

/-- The character class kept by werkzeug's `_filename_ascii_strip_re`:
ASCII letters, digits, underscore, dot, hyphen. -/
def allowedFilenameChar (c : Char) : Bool :=
  decide (65 ≤ c.toNat ∧ c.toNat ≤ 90) ||
  decide (97 ≤ c.toNat ∧ c.toNat ≤ 122) ||
  decide (48 ≤ c.toNat ∧ c.toNat ≤ 57) ||
  c == '_' || c == '.' || c == '-'

/-- Python `str.strip("._")`. -/
def stripDotUnderscore (l : List Char) : List Char :=
  ((l.dropWhile (fun c => c == '.' || c == '_')).reverse.dropWhile
    (fun c => c == '.' || c == '_')).reverse

def secure_filename (filename : String) : String :=
  let ascii := filename.data.filter (fun c => decide (c.toNat < 128))
  let sepReplaced := ascii.map (fun c => if c == '/' then ' ' else c)
  let joined := List.intercalate ['_'] (splitWords sepReplaced [])
  String.mk (stripDotUnderscore (joined.filter allowedFilenameChar))

/-! ### The media fetcher collaborator

One attempt of the convert loop makes up to two calls into yt-dlp:
`extract_info(url, download=False)` and then `ydl.download([url])`.
Either call may raise a `yt_dlp.utils.DownloadError` or any other
exception; we record which class was raised and its `str(e)` text.
The collaborator is a function from the attempt index to the behaviour
of both calls on that attempt. -/

structure PyError where
  isDownloadError : Bool
  msg : String
deriving DecidableEq

inductive DlResult where
  | ok
  | raised (e : PyError)
deriving DecidableEq

inductive AttemptResult where
  | metaRaised (e : PyError)
  | metaOk (duration : Option Int) (title : Option String) (dl : DlResult)
deriving DecidableEq

/-! ### Responses of the convert handler (src/app.py lines 134-223)

Each constructor is one of the `jsonify` returns of the handler;
`noResponse` stands for the (unreachable) fall-through of the for loop. -/

inductive ConvertResponse where
  | jsonExpected
  | invalidUrl
  | invalidFormat
  | videoTooLong
  | success (title : String) (duration : Int) (download_url : String)
  | rateLimited
  | downloadFailed (details : String)
  | internalError (details : String)
  | noResponse
deriving DecidableEq

/-- HTTP status paired with each return of the handler. -/
def statusCode : ConvertResponse → Nat
  | .jsonExpected => 400
  | .invalidUrl => 400
  | .invalidFormat => 400
  | .videoTooLong => 400
  | .success _ _ _ => 200
  | .rateLimited => 429
  | .downloadFailed _ => 400
  | .internalError _ => 500
  | .noResponse => 500

/-- The JSON keys of each response body, in the order they appear in the
source's dict literals. -/
def responseFields : ConvertResponse → List String
  | .jsonExpected => ["error"]
  | .invalidUrl => ["error"]
  | .invalidFormat => ["error"]
  | .videoTooLong => ["error"]
  | .success _ _ _ => ["title", "duration", "download_url"]
  | .rateLimited => ["error", "solution", "code"]
  | .downloadFailed _ => ["error", "details"]
  | .internalError _ => ["error", "details"]
  | .noResponse => []

/-- The value of the "error" key of each response body. -/
def responseErrorField : ConvertResponse → Option String
  | .jsonExpected => some "JSON expected"
  | .invalidUrl => some "Invalid YouTube URL"
  | .invalidFormat => some "Invalid format"
  | .videoTooLong => some "Video too long"
  | .success _ _ _ => none
  | .rateLimited => some "YouTube temporary restriction"
  | .downloadFailed _ => some "Download failed"
  | .internalError _ => some "Internal error"
  | .noResponse => none

/-- The value of the "code" key of each response body. -/
def responseCodeField : ConvertResponse → Option String
  | .rateLimited => some "rate_limit"
  | _ => none

/-- The value of the "details" key of each response body. -/
def responseDetailsField : ConvertResponse → Option String
  | .downloadFailed d => some d
  | .internalError d => some d
  | _ => none

def isSuccessResponse : ConvertResponse → Bool
  | .success _ _ _ => true
  | _ => false

/-! ### The convert orchestrator (src/app.py lines 131-223) -/

/-- A raw POST body as the handler sees it: whether it is JSON, and the
url / format fields of the parsed object. -/
structure RawRequest where
  is_json : Bool
  url : Option String
  format : Option String
deriving DecidableEq

/-- The handler's observable outcome: its HTTP response plus a trace of
its interactions (collaborator invocations, backoff sleeps, scheduled
deletions). -/
structure ConvertTrace where
  response : ConvertResponse
  metaCalls : Nat
  downloadCalls : Nat
  backoffSleeps : List Nat
  scheduledDeletes : List String
deriving DecidableEq

/-- The transient-failure signature test of line 199:
`"bot" in error.lower() or "429" in error`. -/
def transientSignature (errMsg : String) : Bool :=
  containsSub (pyLower errMsg) "bot" || containsSub errMsg "429"

/-- What one iteration of the for loop does before any `except` clause
runs: either a `return` (with the artifact deletions it schedules and
whether `ydl.download` was invoked), or a raised exception. -/
inductive LoopStep where
  | finish (r : ConvertResponse) (scheduled : List String) (dlCalled : Bool)
  | raised (e : PyError) (dlCalled : Bool)

/-- The try-block body of one attempt (src/app.py lines 153-193). -/
def attemptBody (fmt hostUrl : String) (r : AttemptResult) : LoopStep :=
  match r with
  | .metaRaised e => .raised e false
  | .metaOk durOpt titleOpt dl =>
    let duration := durOpt.getD 0
    if MAX_DURATION_SECONDS < duration then
      .finish .videoTooLong [] false
    else
      let title := sanitize_filename (titleOpt.getD "media")
      let outputFilename := title ++ "." ++ fmt
      let outputPath := DOWNLOAD_FOLDER ++ "/" ++ outputFilename
      match dl with
      | .ok =>
        .finish
          (.success title duration
            (rstripSlash hostUrl ++ "/download/" ++ secure_filename outputFilename))
          [outputPath] true
      | .raised e => .raised e true

/-- The for loop of the handler (src/app.py lines 152-223): `attempt` is
the Python loop index, the middle argument the iterations left,
`retryDelay` the mutable `retry_delay` variable, and the trace
accumulates the side effects so far. -/
def runAttempts (fetch : Nat → AttemptResult) (fmt hostUrl : String) :
    Nat → Nat → Nat → ConvertTrace → ConvertTrace
  | _, 0, _, acc => {acc with response := .noResponse}
  | attempt, remaining + 1, retryDelay, acc =>
    let acc1 := {acc with metaCalls := acc.metaCalls + 1}
    match attemptBody fmt hostUrl (fetch attempt) with
    | .finish r scheduled dlCalled =>
      {acc1 with
        response := r
        downloadCalls := acc1.downloadCalls + (if dlCalled then 1 else 0)
        scheduledDeletes := acc1.scheduledDeletes ++ scheduled}
    | .raised e dlCalled =>
      let acc2 :=
        {acc1 with downloadCalls := acc1.downloadCalls + (if dlCalled then 1 else 0)}
      if e.isDownloadError then
        if transientSignature e.msg then
          if attempt < maxRetries - 1 then
            runAttempts fetch fmt hostUrl (attempt + 1) remaining (retryDelay * 2)
              {acc2 with backoffSleeps := acc2.backoffSleeps ++ [retryDelay]}
          else
            {acc2 with response := .rateLimited}
        else
          {acc2 with response := .downloadFailed e.msg}
      else
        if attempt < maxRetries - 1 then
          runAttempts fetch fmt hostUrl (attempt + 1) remaining retryDelay
            {acc2 with backoffSleeps := acc2.backoffSleeps ++ [retryDelay]}
        else
          {acc2 with response := .internalError e.msg}

/-- The empty trace the handler starts from. -/
def emptyTrace : ConvertTrace :=
  { response := .noResponse, metaCalls := 0, downloadCalls := 0,
    backoffSleeps := [], scheduledDeletes := [] }

/-- `data.get("format", "mp3").lower()`. -/
def requestedFormat (req : RawRequest) : String :=
  pyLower (req.format.getD "mp3")

/-- The convert handler: validation checks in source order, then the
retry loop. -/
def convert (req : RawRequest) (fetch : Nat → AttemptResult) (hostUrl : String) :
    ConvertTrace :=
  if !req.is_json then
    {emptyTrace with response := .jsonExpected}
  else
    let fmt := requestedFormat req
    if pyFalsyStr req.url || !matchesYoutubeUrl (req.url.getD "") then
      {emptyTrace with response := .invalidUrl}
    else if !(fmt == "mp3" || fmt == "mp4") then
      {emptyTrace with response := .invalidFormat}
    else
      runAttempts fetch fmt hostUrl 0 maxRetries initialRetryDelay emptyTrace

/-- The validation conjunction: exactly the requests that reach the
retry loop. -/
def validRequest (req : RawRequest) : Bool :=
  req.is_json && !pyFalsyStr req.url && matchesYoutubeUrl (req.url.getD "") &&
    (requestedFormat req == "mp3" || requestedFormat req == "mp4")

/-! ### Attempt classifications used by the retry-policy claims -/

/-- The attempt raises a DownloadError carrying a transient signature
(and, when the failure is in the download call, the duration check
passed first so the download was reached). -/
def transientFailAttempt : AttemptResult → Bool
  | .metaRaised e => e.isDownloadError && transientSignature e.msg
  | .metaOk durOpt _ (.raised e) =>
    decide (durOpt.getD 0 ≤ MAX_DURATION_SECONDS) && e.isDownloadError &&
      transientSignature e.msg
  | .metaOk _ _ .ok => false

/-- The attempt raises a non-DownloadError exception. -/
def genericFailAttempt : AttemptResult → Bool
  | .metaRaised e => !e.isDownloadError
  | .metaOk durOpt _ (.raised e) =>
    decide (durOpt.getD 0 ≤ MAX_DURATION_SECONDS) && !e.isDownloadError
  | .metaOk _ _ .ok => false

/-- The attempt runs to a successful download. -/
def successAttempt : AttemptResult → Bool
  | .metaOk durOpt _ .ok => decide (durOpt.getD 0 ≤ MAX_DURATION_SECONDS)
  | _ => false

/-- The `str(e)` of the exception an attempt raises (empty if none). -/
def attemptErrMsg : AttemptResult → String
  | .metaRaised e => e.msg
  | .metaOk _ _ (.raised e) => e.msg
  | .metaOk _ _ .ok => ""

/-- Whether the download call was reached on a raising attempt. -/
def dlInvoked : AttemptResult → Nat
  | .metaRaised _ => 0
  | .metaOk _ _ _ => 1

/-- The sanitized title an attempt's metadata produces. -/
def attemptTitle : AttemptResult → String
  | .metaOk _ t _ => sanitize_filename (t.getD "media")
  | .metaRaised _ => ""

/-- The duration an attempt's metadata produces. -/
def attemptDuration : AttemptResult → Int
  | .metaOk d _ _ => d.getD 0
  | .metaRaised _ => 0

/-! ### The download endpoint (src/app.py lines 225-241)

`download(filename)` collapses the request to
`secure_filename(filename)` and streams that name from the download
directory via flask's `send_from_directory`.  When the file is absent,
`send_from_directory` raises `werkzeug.exceptions.NotFound` — an
`Exception` but not a `FileNotFoundError` — so the
except-FileNotFoundError branch (404, "File expired or not found") is
dead code for a missing artifact, and the generic except-Exception
branch answers 500, "Download error", instead.  The `fileExpired`
constructor records that dead 404 branch; the model never produces it.
The directory content is passed in as the list of names currently
stored. -/

inductive DownloadResponse where
  | fileStream (name : String)
  | fileExpired
  | downloadError
deriving DecidableEq

def downloadStatus : DownloadResponse → Nat
  | .fileStream _ => 200
  | .fileExpired => 404
  | .downloadError => 500

def download (filename : String) (files : List String) : DownloadResponse :=
  let safe := secure_filename filename
  if files.contains safe then .fileStream safe else .downloadError

/-! ### The deferred file reaper (src/app.py lines 71-80)

`delete_file_later(filepath, delay)` starts a daemon thread that sleeps
`delay` seconds and then removes the file if it still exists, logging
and swallowing any removal error.  We model it over a simulated clock:
a state holds the time, the stored files, and the armed timers;
scheduling only arms a timer, and `fireDue` advances the clock and runs
every timer that has come due. -/

structure ReaperState where
  now : Nat
  files : List String
  pending : List (Nat × String)
deriving DecidableEq

/-- Scheduling: arm a timer for `now + delay`; nothing else changes, the
caller is not blocked. -/
def delete_file_later (st : ReaperState) (filepath : String) (delay : Nat) :
    ReaperState :=
  {st with pending := st.pending ++ [(st.now + delay, filepath)]}

/-- The body of the timer thread: if the file exists, remove it; a
removal failure (modelled by the oracle `removeFails`) leaves the file
and yields a log line; in every case the thread returns normally.
Returns the new directory content and the logged error, if any. -/
def runDelete (removeFails : String → Bool) (files : List String)
    (filepath : String) : List String × Option String :=
  if files.contains filepath then
    if removeFails filepath then
      (files, some ("Error deleting file " ++ filepath))
    else
      (files.filter (fun f => !(f == filepath)), none)
  else
    (files, none)

/-- Advance the simulated clock to `t`, running every pending timer that
is due, in arming order; returns the new state and the log lines. -/
def fireDue (removeFails : String → Bool) (t : Nat) (st : ReaperState) :
    ReaperState × List String :=
  let due := st.pending.filter (fun e => decide (e.fst ≤ t))
  let notDue := st.pending.filter (fun e => !decide (e.fst ≤ t))
  let result := due.foldl
    (fun acc e =>
      let r := runDelete removeFails acc.fst e.snd
      (r.fst, acc.snd ++ r.snd.toList))
    (st.files, ([] : List String))
  ({now := t, files := result.fst, pending := notDue}, result.snd)

/-! ## Helper lemmas about the retry loop -/

/-- A valid request reaches the retry loop unchanged. -/
theorem convert_of_valid (req : RawRequest) (fetch : Nat → AttemptResult)
    (hostUrl : String) (h : validRequest req = true) :
    convert req fetch hostUrl =
      runAttempts fetch (requestedFormat req) hostUrl 0 maxRetries
        initialRetryDelay emptyTrace := by
  simp only [validRequest, Bool.and_eq_true, Bool.not_eq_true'] at h
  obtain ⟨⟨⟨hjson, hurl⟩, hmatch⟩, hfmt⟩ := h
  simp [convert, hjson, hurl, hmatch, hfmt]

/-- A transient DownloadError on a non-final attempt sleeps the current
delay, doubles it, and retries. -/
theorem runAttempts_transient_retry (fetch : Nat → AttemptResult)
    (fmt hostUrl : String) (attempt remaining retryDelay : Nat)
    (acc : ConvertTrace) (h : transientFailAttempt (fetch attempt) = true)
    (hlt : attempt < maxRetries - 1) :
    runAttempts fetch fmt hostUrl attempt (remaining + 1) retryDelay acc =
      runAttempts fetch fmt hostUrl (attempt + 1) remaining (retryDelay * 2)
        { acc with
          metaCalls := acc.metaCalls + 1
          downloadCalls := acc.downloadCalls + dlInvoked (fetch attempt)
          backoffSleeps := acc.backoffSleeps ++ [retryDelay] } := by
  cases hf : fetch attempt with
  | metaRaised e =>
    rw [hf] at h
    simp only [transientFailAttempt, Bool.and_eq_true] at h
    simp [runAttempts, attemptBody, hf, h.1, h.2, hlt, dlInvoked]
  | metaOk durOpt titleOpt dl =>
    rw [hf] at h
    cases dl with
    | ok => simp [transientFailAttempt] at h
    | raised e =>
      simp only [transientFailAttempt, Bool.and_eq_true, decide_eq_true_eq] at h
      obtain ⟨⟨hdur, hde⟩, hts⟩ := h
      simp [runAttempts, attemptBody, hf, hde, hts, hlt, dlInvoked,
        not_lt.mpr hdur]

/-- A transient DownloadError on the final attempt returns the 429
rate-limited response. -/
theorem runAttempts_transient_last (fetch : Nat → AttemptResult)
    (fmt hostUrl : String) (attempt remaining retryDelay : Nat)
    (acc : ConvertTrace) (h : transientFailAttempt (fetch attempt) = true)
    (hge : ¬ attempt < maxRetries - 1) :
    runAttempts fetch fmt hostUrl attempt (remaining + 1) retryDelay acc =
      { acc with
        response := .rateLimited
        metaCalls := acc.metaCalls + 1
        downloadCalls := acc.downloadCalls + dlInvoked (fetch attempt) } := by
  cases hf : fetch attempt with
  | metaRaised e =>
    rw [hf] at h
    simp only [transientFailAttempt, Bool.and_eq_true] at h
    simp [runAttempts, attemptBody, hf, h.1, h.2, hge, dlInvoked]
  | metaOk durOpt titleOpt dl =>
    rw [hf] at h
    cases dl with
    | ok => simp [transientFailAttempt] at h
    | raised e =>
      simp only [transientFailAttempt, Bool.and_eq_true, decide_eq_true_eq] at h
      obtain ⟨⟨hdur, hde⟩, hts⟩ := h
      simp [runAttempts, attemptBody, hf, hde, hts, hge, dlInvoked,
        not_lt.mpr hdur]

/-- A non-DownloadError exception on a non-final attempt sleeps the
current delay (without doubling it) and retries. -/
theorem runAttempts_generic_retry (fetch : Nat → AttemptResult)
    (fmt hostUrl : String) (attempt remaining retryDelay : Nat)
    (acc : ConvertTrace) (h : genericFailAttempt (fetch attempt) = true)
    (hlt : attempt < maxRetries - 1) :
    runAttempts fetch fmt hostUrl attempt (remaining + 1) retryDelay acc =
      runAttempts fetch fmt hostUrl (attempt + 1) remaining retryDelay
        { acc with
          metaCalls := acc.metaCalls + 1
          downloadCalls := acc.downloadCalls + dlInvoked (fetch attempt)
          backoffSleeps := acc.backoffSleeps ++ [retryDelay] } := by
  cases hf : fetch attempt with
  | metaRaised e =>
    rw [hf] at h
    simp only [genericFailAttempt, Bool.not_eq_true'] at h
    simp [runAttempts, attemptBody, hf, h, hlt, dlInvoked]
  | metaOk durOpt titleOpt dl =>
    rw [hf] at h
    cases dl with
    | ok => simp [genericFailAttempt] at h
    | raised e =>
      simp only [genericFailAttempt, Bool.and_eq_true, Bool.not_eq_true',
        decide_eq_true_eq] at h
      obtain ⟨hdur, hde⟩ := h
      simp [runAttempts, attemptBody, hf, hde, hlt, dlInvoked,
        not_lt.mpr hdur]

/-- A non-DownloadError exception on the final attempt returns the 500
internal-error response carrying the exception text. -/
theorem runAttempts_generic_last (fetch : Nat → AttemptResult)
    (fmt hostUrl : String) (attempt remaining retryDelay : Nat)
    (acc : ConvertTrace) (h : genericFailAttempt (fetch attempt) = true)
    (hge : ¬ attempt < maxRetries - 1) :
    runAttempts fetch fmt hostUrl attempt (remaining + 1) retryDelay acc =
      { acc with
        response := .internalError (attemptErrMsg (fetch attempt))
        metaCalls := acc.metaCalls + 1
        downloadCalls := acc.downloadCalls + dlInvoked (fetch attempt) } := by
  cases hf : fetch attempt with
  | metaRaised e =>
    rw [hf] at h
    simp only [genericFailAttempt, Bool.not_eq_true'] at h
    simp [runAttempts, attemptBody, hf, h, hge, dlInvoked, attemptErrMsg]
  | metaOk durOpt titleOpt dl =>
    rw [hf] at h
    cases dl with
    | ok => simp [genericFailAttempt] at h
    | raised e =>
      simp only [genericFailAttempt, Bool.and_eq_true, Bool.not_eq_true',
        decide_eq_true_eq] at h
      obtain ⟨hdur, hde⟩ := h
      simp [runAttempts, attemptBody, hf, hde, hge, dlInvoked, attemptErrMsg,
        not_lt.mpr hdur]

/-- A fully successful attempt returns the 200 response and schedules
the artifact for deletion. -/
theorem runAttempts_success_at (fetch : Nat → AttemptResult)
    (fmt hostUrl : String) (attempt remaining retryDelay : Nat)
    (acc : ConvertTrace) (h : successAttempt (fetch attempt) = true) :
    runAttempts fetch fmt hostUrl attempt (remaining + 1) retryDelay acc =
      { acc with
        response := .success (attemptTitle (fetch attempt))
          (attemptDuration (fetch attempt))
          (rstripSlash hostUrl ++ "/download/" ++
            secure_filename (attemptTitle (fetch attempt) ++ "." ++ fmt))
        metaCalls := acc.metaCalls + 1
        downloadCalls := acc.downloadCalls + 1
        scheduledDeletes := acc.scheduledDeletes ++
          [DOWNLOAD_FOLDER ++ "/" ++
            (attemptTitle (fetch attempt) ++ "." ++ fmt)] } := by
  cases hf : fetch attempt with
  | metaRaised e => simp [successAttempt, hf] at h
  | metaOk durOpt titleOpt dl =>
    cases dl with
    | raised e => simp [successAttempt, hf] at h
    | ok =>
      rw [hf] at h
      simp only [successAttempt, decide_eq_true_eq] at h
      simp [runAttempts, attemptBody, hf, not_lt.mpr h, attemptTitle,
        attemptDuration]

/-- A metadata result whose duration exceeds the ceiling returns the 400
video-too-long response without reaching the download call. -/
theorem runAttempts_too_long (fetch : Nat → AttemptResult)
    (fmt hostUrl : String) (attempt remaining retryDelay : Nat)
    (acc : ConvertTrace) (durOpt : Option Int) (titleOpt : Option String)
    (dl : DlResult) (hfetch : fetch attempt = .metaOk durOpt titleOpt dl)
    (hdur : MAX_DURATION_SECONDS < durOpt.getD 0) :
    runAttempts fetch fmt hostUrl attempt (remaining + 1) retryDelay acc =
      { acc with
        response := .videoTooLong
        metaCalls := acc.metaCalls + 1 } := by
  simp [runAttempts, attemptBody, hfetch, hdur]

/-- Against a fetcher whose every attempt fails with a transient
DownloadError, the loop runs its remaining iterations and ends in the
429 rate-limited response. -/
theorem runAttempts_all_transient (fetch : Nat → AttemptResult)
    (fmt hostUrl : String)
    (hfail : ∀ a, transientFailAttempt (fetch a) = true) :
    ∀ remaining attempt retryDelay acc, attempt + remaining = maxRetries →
      0 < remaining →
      (runAttempts fetch fmt hostUrl attempt remaining retryDelay acc).response
          = .rateLimited ∧
      (runAttempts fetch fmt hostUrl attempt remaining retryDelay acc).metaCalls
          = acc.metaCalls + remaining := by
  intro remaining
  induction remaining with
  | zero => intro _ _ _ _ h0; exact absurd h0 (by omega)
  | succ r ih =>
    intro attempt retryDelay acc hsum _
    have hm : maxRetries = 3 := rfl
    rw [hm] at hsum
    by_cases hlt : attempt < maxRetries - 1
    · have hr : 0 < r := by rw [hm] at hlt; omega
      rw [runAttempts_transient_retry fetch fmt hostUrl attempt r retryDelay acc
        (hfail attempt) hlt]
      have hx := ih (attempt + 1) (retryDelay * 2)
        { acc with
          metaCalls := acc.metaCalls + 1
          downloadCalls := acc.downloadCalls + dlInvoked (fetch attempt)
          backoffSleeps := acc.backoffSleeps ++ [retryDelay] }
        (by rw [hm]; omega) hr
      refine ⟨hx.1, ?_⟩
      rw [hx.2]
      show acc.metaCalls + 1 + r = acc.metaCalls + (r + 1)
      omega
    · have hr : r = 0 := by rw [hm] at hlt; omega
      subst hr
      rw [runAttempts_transient_last fetch fmt hostUrl attempt 0 retryDelay acc
        (hfail attempt) hlt]
      exact ⟨rfl, rfl⟩

/-- Against a fetcher whose every attempt raises a non-DownloadError
exception, the loop runs its remaining iterations and ends in the 500
internal-error response carrying the final attempt's error text. -/
theorem runAttempts_all_generic (fetch : Nat → AttemptResult)
    (fmt hostUrl : String)
    (hfail : ∀ a, genericFailAttempt (fetch a) = true) :
    ∀ remaining attempt retryDelay acc, attempt + remaining = maxRetries →
      0 < remaining →
      (runAttempts fetch fmt hostUrl attempt remaining retryDelay acc).response
          = .internalError (attemptErrMsg (fetch (maxRetries - 1))) ∧
      (runAttempts fetch fmt hostUrl attempt remaining retryDelay acc).metaCalls
          = acc.metaCalls + remaining := by
  intro remaining
  induction remaining with
  | zero => intro _ _ _ _ h0; exact absurd h0 (by omega)
  | succ r ih =>
    intro attempt retryDelay acc hsum _
    have hm : maxRetries = 3 := rfl
    rw [hm] at hsum
    by_cases hlt : attempt < maxRetries - 1
    · have hr : 0 < r := by rw [hm] at hlt; omega
      rw [runAttempts_generic_retry fetch fmt hostUrl attempt r retryDelay acc
        (hfail attempt) hlt]
      have hx := ih (attempt + 1) retryDelay
        { acc with
          metaCalls := acc.metaCalls + 1
          downloadCalls := acc.downloadCalls + dlInvoked (fetch attempt)
          backoffSleeps := acc.backoffSleeps ++ [retryDelay] }
        (by rw [hm]; omega) hr
      refine ⟨hx.1, ?_⟩
      rw [hx.2]
      show acc.metaCalls + 1 + r = acc.metaCalls + (r + 1)
      omega
    · have hr : r = 0 := by rw [hm] at hlt; omega
      subst hr
      have ha : attempt = maxRetries - 1 := by rw [hm] at hlt ⊢; omega
      subst ha
      rw [runAttempts_generic_last fetch fmt hostUrl (maxRetries - 1) 0 retryDelay
        acc (hfail _) hlt]
      exact ⟨rfl, rfl⟩

/-- Every 200 response the retry loop can produce carries the download
URL computed from its own title and the requested format. -/
theorem runAttempts_success_shape (fetch : Nat → AttemptResult)
    (fmt hostUrl : String) :
    ∀ remaining attempt retryDelay acc t d u,
      (runAttempts fetch fmt hostUrl attempt remaining retryDelay acc).response
          = .success t d u →
      u = rstripSlash hostUrl ++ "/download/" ++
        secure_filename (t ++ "." ++ fmt) := by
  intro remaining
  induction remaining with
  | zero =>
    intro attempt retryDelay acc t d u h
    simp [runAttempts] at h
  | succ r ih =>
    intro attempt retryDelay acc t d u h
    cases hf : fetch attempt with
    | metaRaised e =>
      simp only [runAttempts] at h
      rw [hf] at h
      simp only [attemptBody] at h
      split at h
      · split at h
        · split at h
          · exact ih _ _ _ _ _ _ h
          · simp at h
        · simp at h
      · split at h
        · exact ih _ _ _ _ _ _ h
        · simp at h
    | metaOk durOpt titleOpt dl =>
      by_cases hd : MAX_DURATION_SECONDS < durOpt.getD 0
      · rw [runAttempts_too_long fetch fmt hostUrl attempt r retryDelay acc
          durOpt titleOpt dl hf hd] at h
        simp at h
      · cases dl with
        | ok =>
          have hs : successAttempt (fetch attempt) = true := by
            rw [hf]
            simp only [successAttempt, decide_eq_true_eq]
            omega
          rw [runAttempts_success_at fetch fmt hostUrl attempt r retryDelay
            acc hs] at h
          simp only [ConvertResponse.success.injEq] at h
          rw [← h.2.2, ← h.1]
        | raised e =>
          by_cases hde : e.isDownloadError = true
          · by_cases hts : transientSignature e.msg = true
            · have htf : transientFailAttempt (fetch attempt) = true := by
                rw [hf]
                simp only [transientFailAttempt, Bool.and_eq_true,
                  decide_eq_true_eq]
                exact ⟨⟨by omega, hde⟩, hts⟩
              by_cases hlt : attempt < maxRetries - 1
              · rw [runAttempts_transient_retry fetch fmt hostUrl attempt r
                  retryDelay acc htf hlt] at h
                exact ih _ _ _ _ _ _ h
              · rw [runAttempts_transient_last fetch fmt hostUrl attempt r
                  retryDelay acc htf hlt] at h
                simp at h
            · simp only [runAttempts] at h
              rw [hf] at h
              simp only [attemptBody, if_neg hd] at h
              rw [Bool.not_eq_true] at hts
              simp [hde, hts] at h
          · have hgf : genericFailAttempt (fetch attempt) = true := by
              rw [hf]
              simp only [genericFailAttempt, Bool.and_eq_true,
                Bool.not_eq_true', decide_eq_true_eq]
              exact ⟨by omega, Bool.not_eq_true _ ▸ hde⟩
            by_cases hlt : attempt < maxRetries - 1
            · rw [runAttempts_generic_retry fetch fmt hostUrl attempt r
                retryDelay acc hgf hlt] at h
              exact ih _ _ _ _ _ _ h
            · rw [runAttempts_generic_last fetch fmt hostUrl attempt r
                retryDelay acc hgf hlt] at h
              simp at h

/-- Dropping a while-initial segment keeps membership in the original
list. -/
theorem mem_of_mem_dropWhile {p : Char → Bool} :
    ∀ {l : List Char} {c : Char}, c ∈ l.dropWhile p → c ∈ l := by
  intro l
  induction l with
  | nil => intro c h; simp at h
  | cons a as ih =>
    intro c h
    by_cases hp : p a
    · rw [List.dropWhile_cons_of_pos hp] at h
      exact List.mem_cons_of_mem _ (ih h)
    · rw [List.dropWhile_cons_of_neg hp] at h
      exact h

/-- Every character of a secure_filename result is in the kept class
(ASCII letter, digit, underscore, dot or hyphen); in particular no path
separator survives. -/
theorem secure_filename_allowed (filename : String) :
    ∀ c ∈ (secure_filename filename).data, allowedFilenameChar c = true := by
  intro c hc
  simp only [secure_filename, stripDotUnderscore] at hc
  rw [List.mem_reverse] at hc
  have h1 := mem_of_mem_dropWhile hc
  rw [List.mem_reverse] at h1
  have h2 := mem_of_mem_dropWhile h1
  exact (List.mem_filter.mp h2).2

/-! ## Claim theorems -/

/-- C2: for every title, the sanitized filename contains none of the
characters backslash / * ? : " < > | (each occurrence having been
replaced by an underscore), its length is at most 128 characters, and
the derivation is deterministic: equal titles give equal filenames. -/
theorem claim_C2_sanitize_filename :
    (∀ title : String,
      (∀ c ∈ (sanitize_filename title).data, badFilenameChar c = false) ∧
      (sanitize_filename title).length ≤ MAX_FILENAME_LENGTH) ∧
    (∀ t1 t2 : String, t1 = t2 →
      sanitize_filename t1 = sanitize_filename t2) := by
  constructor
  · intro title
    constructor
    · intro c hc
      simp only [sanitize_filename] at hc
      have h1 := List.mem_of_mem_take hc
      obtain ⟨a, _, ha⟩ := List.mem_map.mp h1
      cases hb : badFilenameChar a with
      | true => rw [← ha, if_pos hb]; decide
      | false => rw [← ha, if_neg (by simp [hb])]; exact hb
    · simp only [sanitize_filename, String.length, List.length_take]
      omega
  · intro t1 t2 h
    rw [h]

/-- Witness for C2 at a concrete title. -/
theorem claim_C2_witness :
    sanitize_filename "a<b>:c" = sanitize_filename "a<b>:c" :=
  claim_C2_sanitize_filename.2 "a<b>:c" "a<b>:c" rfl

/-- C1: a valid request whose metadata lookup yields a duration above
9000 seconds is answered with the 400 video-too-long response, and the
fetch / transcode call is never invoked for that request. -/
theorem claim_C1_duration_exceeded (req : RawRequest)
    (fetch : Nat → AttemptResult) (hostUrl : String) (durOpt : Option Int)
    (titleOpt : Option String) (dl : DlResult)
    (hvalid : validRequest req = true)
    (hfetch : fetch 0 = .metaOk durOpt titleOpt dl)
    (hdur : (9000 : Int) < durOpt.getD 0) :
    (convert req fetch hostUrl).response = .videoTooLong ∧
    statusCode (convert req fetch hostUrl).response = 400 ∧
    (convert req fetch hostUrl).downloadCalls = 0 := by
  have hd : MAX_DURATION_SECONDS < durOpt.getD 0 := by
    have h9 : MAX_DURATION_SECONDS = (9000 : Int) := by
      norm_num [MAX_DURATION_SECONDS]
    rw [h9]
    exact hdur
  have hc : convert req fetch hostUrl =
      { emptyTrace with
        response := .videoTooLong
        metaCalls := emptyTrace.metaCalls + 1 } := by
    rw [convert_of_valid req fetch hostUrl hvalid]
    exact runAttempts_too_long fetch (requestedFormat req) hostUrl 0 2
      initialRetryDelay emptyTrace durOpt titleOpt dl hfetch hd
  rw [hc]
  exact ⟨rfl, rfl, rfl⟩

/-- Witness for C1: a 9001-second video on a valid request. -/
theorem claim_C1_witness :
    (convert
        { is_json := true, url := some "https://www.youtube.com/watch?v=a",
          format := none }
        (fun _ => .metaOk (some 9001) (some "long video") .ok)
        "http://h/").response = .videoTooLong ∧
    statusCode (convert
        { is_json := true, url := some "https://www.youtube.com/watch?v=a",
          format := none }
        (fun _ => .metaOk (some 9001) (some "long video") .ok)
        "http://h/").response = 400 ∧
    (convert
        { is_json := true, url := some "https://www.youtube.com/watch?v=a",
          format := none }
        (fun _ => .metaOk (some 9001) (some "long video") .ok)
        "http://h/").downloadCalls = 0 :=
  claim_C1_duration_exceeded _ _ _ _ _ _ (by decide) rfl (by decide)

/-- C5: the validator applies its three checks in source order (JSON
shape, URL pattern, format enum with default mp3), reports only the
first violated rule, and a rejected request triggers no fetcher call,
no download and no scheduled disk cleanup (the returned trace is the
empty trace with only the response set). -/
theorem claim_C5_validator_order :
    (∀ (req : RawRequest) (fetch : Nat → AttemptResult) (hostUrl : String),
      req.is_json = false →
      convert req fetch hostUrl = { emptyTrace with response := .jsonExpected }) ∧
    (∀ (req : RawRequest) (fetch : Nat → AttemptResult) (hostUrl : String),
      req.is_json = true →
      (pyFalsyStr req.url || !matchesYoutubeUrl (req.url.getD "")) = true →
      convert req fetch hostUrl = { emptyTrace with response := .invalidUrl }) ∧
    (∀ (req : RawRequest) (fetch : Nat → AttemptResult) (hostUrl : String),
      req.is_json = true →
      (pyFalsyStr req.url || !matchesYoutubeUrl (req.url.getD "")) = false →
      (requestedFormat req == "mp3" || requestedFormat req == "mp4") = false →
      convert req fetch hostUrl = { emptyTrace with response := .invalidFormat }) ∧
    (∀ req : RawRequest, req.format = none → requestedFormat req = "mp3") ∧
    (emptyTrace.metaCalls = 0 ∧ emptyTrace.downloadCalls = 0 ∧
      emptyTrace.scheduledDeletes = []) := by
  refine ⟨?_, ?_, ?_, ?_, rfl, rfl, rfl⟩
  · intro req fetch hostUrl h
    simp [convert, h]
  · intro req fetch hostUrl h1 h2
    simp [convert, h1, h2]
  · intro req fetch hostUrl h1 h2 h3
    simp [convert, h1, h2, h3]
  · intro req h
    simp [requestedFormat, h]
    decide

/-- Witness for C5: a non-JSON body, a vimeo URL with a bad format
(rejected for the URL alone), a valid URL with a bad format, and the
mp3 default. -/
theorem claim_C5_witness :
    convert { is_json := false, url := none, format := none }
        (fun _ => .metaOk none none .ok) "h"
      = { emptyTrace with response := .jsonExpected } ∧
    convert { is_json := true, url := some "https://vimeo.com/x",
              format := some "flac" } (fun _ => .metaOk none none .ok) "h"
      = { emptyTrace with response := .invalidUrl } ∧
    convert { is_json := true, url := some "https://youtu.be/x",
              format := some "flac" } (fun _ => .metaOk none none .ok) "h"
      = { emptyTrace with response := .invalidFormat } ∧
    requestedFormat { is_json := true, url := some "u", format := none }
      = "mp3" :=
  ⟨claim_C5_validator_order.1 _ _ _ rfl,
   claim_C5_validator_order.2.1 _ _ _ rfl (by decide),
   claim_C5_validator_order.2.2.1 _ _ _ rfl (by decide) (by decide),
   claim_C5_validator_order.2.2.2.1 _ rfl⟩

/-- C3: against a media fetcher every attempt of which fails with a
transient signature (a DownloadError whose text contains "bot" after
lowercasing, or "429"), a valid request makes exactly 3 attempts and is
answered with the 429 rate-limited response carrying the
machine-readable code "rate_limit". -/
theorem claim_C3_rate_limited (req : RawRequest)
    (fetch : Nat → AttemptResult) (hostUrl : String)
    (hvalid : validRequest req = true)
    (hfail : ∀ a, transientFailAttempt (fetch a) = true) :
    (convert req fetch hostUrl).response = .rateLimited ∧
    statusCode (convert req fetch hostUrl).response = 429 ∧
    responseCodeField (convert req fetch hostUrl).response
      = some "rate_limit" ∧
    (convert req fetch hostUrl).metaCalls = 3 := by
  rw [convert_of_valid req fetch hostUrl hvalid]
  have h := runAttempts_all_transient fetch (requestedFormat req) hostUrl
    hfail maxRetries 0 initialRetryDelay emptyTrace (Nat.zero_add _)
    (by decide)
  refine ⟨h.1, ?_, ?_, ?_⟩
  · rw [h.1]
    rfl
  · rw [h.1]
    rfl
  · rw [h.2]
    rfl

/-- Witness for C3: a fetcher that always raises an HTTP 429
DownloadError. -/
theorem claim_C3_witness :
    (convert
        { is_json := true, url := some "https://youtu.be/x", format := none }
        (fun _ => .metaRaised { isDownloadError := true,
                                msg := "HTTP Error 429: Too Many Requests" })
        "http://h/").response = .rateLimited ∧
    statusCode (convert
        { is_json := true, url := some "https://youtu.be/x", format := none }
        (fun _ => .metaRaised { isDownloadError := true,
                                msg := "HTTP Error 429: Too Many Requests" })
        "http://h/").response = 429 ∧
    responseCodeField (convert
        { is_json := true, url := some "https://youtu.be/x", format := none }
        (fun _ => .metaRaised { isDownloadError := true,
                                msg := "HTTP Error 429: Too Many Requests" })
        "http://h/").response = some "rate_limit" ∧
    (convert
        { is_json := true, url := some "https://youtu.be/x", format := none }
        (fun _ => .metaRaised { isDownloadError := true,
                                msg := "HTTP Error 429: Too Many Requests" })
        "http://h/").metaCalls = 3 :=
  claim_C3_rate_limited _ _ _ (by decide) (fun a => by decide)

/-- C4: against a fetcher that fails with a transient signature on the
first two attempts and succeeds on the third, a valid request succeeds
on the 3rd attempt, and the backoff sleeps between the attempts are
5 seconds then 10 seconds — at least 15 seconds of backoff in total
before success. -/
theorem claim_C4_backoff_success (req : RawRequest)
    (fetch : Nat → AttemptResult) (hostUrl : String)
    (hvalid : validRequest req = true)
    (h0 : transientFailAttempt (fetch 0) = true)
    (h1 : transientFailAttempt (fetch 1) = true)
    (h2 : successAttempt (fetch 2) = true) :
    isSuccessResponse (convert req fetch hostUrl).response = true ∧
    (convert req fetch hostUrl).metaCalls = 3 ∧
    (convert req fetch hostUrl).backoffSleeps = [5, 10] ∧
    15 ≤ (convert req fetch hostUrl).backoffSleeps.sum := by
  rw [convert_of_valid req fetch hostUrl hvalid]
  have s1 : runAttempts fetch (requestedFormat req) hostUrl 0 maxRetries
      initialRetryDelay emptyTrace
      = runAttempts fetch (requestedFormat req) hostUrl 1 2 10
        { response := .noResponse, metaCalls := 1,
          downloadCalls := dlInvoked (fetch 0), backoffSleeps := [5],
          scheduledDeletes := [] } := by
    have hs := runAttempts_transient_retry fetch (requestedFormat req)
      hostUrl 0 2 initialRetryDelay emptyTrace h0 (by decide)
    simpa [emptyTrace, maxRetries, initialRetryDelay] using hs
  have s2 : runAttempts fetch (requestedFormat req) hostUrl 1 2 10
      { response := .noResponse, metaCalls := 1,
        downloadCalls := dlInvoked (fetch 0), backoffSleeps := [5],
        scheduledDeletes := [] }
      = runAttempts fetch (requestedFormat req) hostUrl 2 1 20
        { response := .noResponse, metaCalls := 2,
          downloadCalls := dlInvoked (fetch 0) + dlInvoked (fetch 1),
          backoffSleeps := [5, 10], scheduledDeletes := [] } := by
    have hs := runAttempts_transient_retry fetch (requestedFormat req)
      hostUrl 1 1 10
      { response := .noResponse, metaCalls := 1,
        downloadCalls := dlInvoked (fetch 0), backoffSleeps := [5],
        scheduledDeletes := [] } h1 (by decide)
    simpa using hs
  have s3 : runAttempts fetch (requestedFormat req) hostUrl 2 1 20
      { response := .noResponse, metaCalls := 2,
        downloadCalls := dlInvoked (fetch 0) + dlInvoked (fetch 1),
        backoffSleeps := [5, 10], scheduledDeletes := [] }
      = { response := .success (attemptTitle (fetch 2))
            (attemptDuration (fetch 2))
            (rstripSlash hostUrl ++ "/download/" ++
              secure_filename (attemptTitle (fetch 2) ++ "." ++
                requestedFormat req)),
          metaCalls := 3,
          downloadCalls := dlInvoked (fetch 0) + dlInvoked (fetch 1) + 1,
          backoffSleeps := [5, 10],
          scheduledDeletes := [DOWNLOAD_FOLDER ++ "/" ++
            (attemptTitle (fetch 2) ++ "." ++ requestedFormat req)] } := by
    have hs := runAttempts_success_at fetch (requestedFormat req) hostUrl
      2 0 20
      { response := .noResponse, metaCalls := 2,
        downloadCalls := dlInvoked (fetch 0) + dlInvoked (fetch 1),
        backoffSleeps := [5, 10], scheduledDeletes := [] } h2
    simpa using hs
  rw [s1, s2, s3]
  refine ⟨rfl, rfl, rfl, ?_⟩
  simp

/-- Witness for C4: two bot-detection failures, then a successful
conversion. -/
theorem claim_C4_witness :
    isSuccessResponse (convert
        { is_json := true, url := some "https://youtu.be/x", format := none }
        (fun a => if a < 2 then
            .metaRaised { isDownloadError := true, msg := "Sign in to confirm you are not a bot" }
          else .metaOk (some 100) (some "v") .ok)
        "http://h/").response = true ∧
    (convert
        { is_json := true, url := some "https://youtu.be/x", format := none }
        (fun a => if a < 2 then
            .metaRaised { isDownloadError := true, msg := "Sign in to confirm you are not a bot" }
          else .metaOk (some 100) (some "v") .ok)
        "http://h/").metaCalls = 3 ∧
    (convert
        { is_json := true, url := some "https://youtu.be/x", format := none }
        (fun a => if a < 2 then
            .metaRaised { isDownloadError := true, msg := "Sign in to confirm you are not a bot" }
          else .metaOk (some 100) (some "v") .ok)
        "http://h/").backoffSleeps = [5, 10] ∧
    15 ≤ (convert
        { is_json := true, url := some "https://youtu.be/x", format := none }
        (fun a => if a < 2 then
            .metaRaised { isDownloadError := true, msg := "Sign in to confirm you are not a bot" }
          else .metaOk (some 100) (some "v") .ok)
        "http://h/").backoffSleeps.sum :=
  claim_C4_backoff_success _ _ _ (by decide) (by decide) (by decide)
    (by decide)

/-- C8 counterexample: with a non-downloader error ("disk full") on
every attempt, the 500 response body carries the underlying error text
in its details field — the client-visible body is not a generic message
only, refuting the claim as stated. -/
theorem claim_C8_counterexample :
    (convert
        { is_json := true, url := some "https://youtu.be/x", format := none }
        (fun _ => .metaRaised { isDownloadError := false,
                                msg := "disk full: downloads" })
        "http://h/").response = .internalError "disk full: downloads" ∧
    responseDetailsField (convert
        { is_json := true, url := some "https://youtu.be/x", format := none }
        (fun _ => .metaRaised { isDownloadError := false,
                                msg := "disk full: downloads" })
        "http://h/").response = some "disk full: downloads" ∧
    statusCode (convert
        { is_json := true, url := some "https://youtu.be/x", format := none }
        (fun _ => .metaRaised { isDownloadError := false,
                                msg := "disk full: downloads" })
        "http://h/").response = 500 := by
  decide

/-- C8 amended: for every unexpected (non-DownloadError) failure mode
that exhausts the attempts, convert returns HTTP 500; the body carries
the generic message "Internal error" in its error field together with
the last underlying error text in its details field, so the underlying
detail is client-visible rather than hidden. -/
theorem claim_C8_amended (req : RawRequest) (fetch : Nat → AttemptResult)
    (hostUrl : String) (hvalid : validRequest req = true)
    (hfail : ∀ a, genericFailAttempt (fetch a) = true) :
    (convert req fetch hostUrl).response
      = .internalError (attemptErrMsg (fetch 2)) ∧
    statusCode (convert req fetch hostUrl).response = 500 ∧
    responseErrorField (convert req fetch hostUrl).response
      = some "Internal error" ∧
    responseDetailsField (convert req fetch hostUrl).response
      = some (attemptErrMsg (fetch 2)) ∧
    (convert req fetch hostUrl).metaCalls = 3 := by
  rw [convert_of_valid req fetch hostUrl hvalid]
  have h := runAttempts_all_generic fetch (requestedFormat req) hostUrl
    hfail maxRetries 0 initialRetryDelay emptyTrace (Nat.zero_add _)
    (by decide)
  refine ⟨h.1, ?_, ?_, ?_, ?_⟩
  · rw [h.1]
    rfl
  · rw [h.1]
    rfl
  · rw [h.1]
    rfl
  · rw [h.2]
    rfl

/-- Witness for C8 amended: a filesystem error on every attempt. -/
theorem claim_C8_witness :
    (convert
        { is_json := true, url := some "https://youtu.be/y", format := none }
        (fun _ => .metaRaised { isDownloadError := false, msg := "oops" })
        "http://h/").response = .internalError "oops" ∧
    statusCode (convert
        { is_json := true, url := some "https://youtu.be/y", format := none }
        (fun _ => .metaRaised { isDownloadError := false, msg := "oops" })
        "http://h/").response = 500 ∧
    responseErrorField (convert
        { is_json := true, url := some "https://youtu.be/y", format := none }
        (fun _ => .metaRaised { isDownloadError := false, msg := "oops" })
        "http://h/").response = some "Internal error" ∧
    responseDetailsField (convert
        { is_json := true, url := some "https://youtu.be/y", format := none }
        (fun _ => .metaRaised { isDownloadError := false, msg := "oops" })
        "http://h/").response = some "oops" ∧
    (convert
        { is_json := true, url := some "https://youtu.be/y", format := none }
        (fun _ => .metaRaised { isDownloadError := false, msg := "oops" })
        "http://h/").metaCalls = 3 :=
  claim_C8_amended _ _ _ (by decide) (fun a => by decide)

/-- C6 counterexample: a successful conversion's body has exactly the
keys title, duration and download_url — it has no estimated_size_mb key
and no duration_seconds key, refuting the field list the claim states. -/
theorem claim_C6_counterexample :
    responseFields (convert
        { is_json := true, url := some "https://youtu.be/x", format := none }
        (fun _ => .metaOk (some 100) (some "video") .ok)
        "http://h/").response = ["title", "duration", "download_url"] ∧
    "estimated_size_mb" ∉ responseFields (convert
        { is_json := true, url := some "https://youtu.be/x", format := none }
        (fun _ => .metaOk (some 100) (some "video") .ok)
        "http://h/").response ∧
    "duration_seconds" ∉ responseFields (convert
        { is_json := true, url := some "https://youtu.be/x", format := none }
        (fun _ => .metaOk (some 100) (some "video") .ok)
        "http://h/").response := by
  decide

/-- C6 amended: every successful conversion returns a body whose fields
are exactly title, duration and download_url (no estimated_size_mb
field; the duration field is named duration, not duration_seconds),
with status 200, and download_url is the server-relative path
"/download/" keyed by applying secure_filename to the sanitized title
plus the format extension. -/
theorem claim_C6_amended (req : RawRequest) (fetch : Nat → AttemptResult)
    (hostUrl : String) (t : String) (d : Int) (u : String)
    (h : (convert req fetch hostUrl).response = .success t d u) :
    responseFields (convert req fetch hostUrl).response
      = ["title", "duration", "download_url"] ∧
    u = rstripSlash hostUrl ++ "/download/" ++
      secure_filename (t ++ "." ++ requestedFormat req) ∧
    statusCode (convert req fetch hostUrl).response = 200 := by
  refine ⟨by rw [h]; rfl, ?_, by rw [h]; rfl⟩
  simp only [convert] at h
  split at h
  · simp at h
  · split at h
    · simp at h
    · split at h
      · simp at h
      · exact runAttempts_success_shape fetch (requestedFormat req) hostUrl
          maxRetries 0 initialRetryDelay emptyTrace t d u h

/-- Witness for C6 amended at a concrete successful conversion. -/
theorem claim_C6_witness :
    responseFields (convert
        { is_json := true, url := some "https://youtu.be/x", format := none }
        (fun _ => .metaOk (some 100) (some "video") .ok)
        "http://h/").response = ["title", "duration", "download_url"] ∧
    "http://h/download/video.mp3" = rstripSlash "http://h/" ++ "/download/" ++
      secure_filename ("video" ++ "." ++ requestedFormat
        { is_json := true, url := some "https://youtu.be/x", format := none }) ∧
    statusCode (convert
        { is_json := true, url := some "https://youtu.be/x", format := none }
        (fun _ => .metaOk (some 100) (some "video") .ok)
        "http://h/").response = 200 :=
  claim_C6_amended
    { is_json := true, url := some "https://youtu.be/x", format := none }
    (fun _ => .metaOk (some 100) (some "video") .ok)
    "http://h/" "video" 100 "http://h/download/video.mp3" (by decide)

/-- C7 (code bug): the endpoint does collapse the traversal input
"../../etc/passwd" to the safe basename "etc_passwd" inside the
download directory — that half of the claim holds (see
secure_filename_allowed for the general separator-free property) —
but a missing artifact is answered with the 500 download-error
response, not the claimed 404: flask's send_from_directory raises
werkzeug NotFound, which is not a FileNotFoundError, so the 404
file-expired branch (what the claim and the spec describe) never
fires for a request whose resolved artifact does not exist. -/
theorem claim_C7_code_bug :
    secure_filename "../../etc/passwd" = "etc_passwd" ∧
    download "../../etc/passwd" ["song.mp3"] = .downloadError ∧
    downloadStatus (download "../../etc/passwd" ["song.mp3"]) = 500 ∧
    download "gone.mp3" [] = .downloadError ∧
    downloadStatus DownloadResponse.fileExpired = 404 := by
  decide

/-- C9: scheduling a deletion returns at once, leaving the stored files
and the clock untouched (the file still exists right after
scheduling); once the delay elapses the file is removed and the timer
is consumed, so it fires exactly once; a deletion attempt for an
absent file is a no-op, not an error; and a failing removal yields
only a log line, leaving the files unchanged — the failure reaches no
caller. -/
theorem claim_C9_reaper :
    (∀ (st : ReaperState) (p : String),
      (delete_file_later st p 600).files = st.files ∧
      (delete_file_later st p 600).now = st.now) ∧
    (∀ (st : ReaperState) (p : String) (rf : String → Bool),
      st.pending = [] → rf p = false →
      ((fireDue rf (st.now + 600) (delete_file_later st p 600)).1.files.contains p
          = false ∧
        (fireDue rf (st.now + 600) (delete_file_later st p 600)).1.pending
          = [])) ∧
    (∀ (rf : String → Bool) (files : List String) (p : String),
      files.contains p = false → runDelete rf files p = (files, none)) ∧
    (∀ (rf : String → Bool) (files : List String) (p : String),
      rf p = false → ((runDelete rf files p).1.contains p) = false) ∧
    (∀ (rf : String → Bool) (files : List String) (p : String),
      files.contains p = true → rf p = true →
      runDelete rf files p = (files, some ("Error deleting file " ++ p))) := by
  refine ⟨?_, ?_, ?_, ?_, ?_⟩
  · intro st p
    exact ⟨rfl, rfl⟩
  · intro st p rf hpend hrf
    have hfire : fireDue rf (st.now + 600) (delete_file_later st p 600)
        = ({ now := st.now + 600, files := (runDelete rf st.files p).1,
             pending := [] }, (runDelete rf st.files p).2.toList) := by
      simp [fireDue, delete_file_later, hpend]
    rw [hfire]
    refine ⟨?_, rfl⟩
    by_cases hc : p ∈ st.files
    · simp [runDelete, hc, hrf, List.mem_filter]
    · simp [runDelete, hc]
  · intro rf files p h
    have h' : p ∉ files := by simpa using h
    simp [runDelete, h']
  · intro rf files p hrf
    by_cases hc : p ∈ files
    · simp [runDelete, hc, hrf, List.mem_filter]
    · simp [runDelete, hc]
  · intro rf files p h1 h2
    have h1' : p ∈ files := by simpa using h1
    simp [runDelete, h1', h2]

/-- Witness for C9 on a one-file directory, a clean pending queue and a
removal oracle that never fails. -/
theorem claim_C9_witness :
    (delete_file_later { now := 0, files := ["downloads/a.mp3"], pending := [] }
        "downloads/a.mp3" 600).files
      = ({ now := 0, files := ["downloads/a.mp3"], pending := [] } : ReaperState).files ∧
    ((fireDue (fun _ => false)
        (({ now := 0, files := ["downloads/a.mp3"], pending := [] } : ReaperState).now + 600)
        (delete_file_later { now := 0, files := ["downloads/a.mp3"], pending := [] }
          "downloads/a.mp3" 600)).1.files.contains "downloads/a.mp3" = false) ∧
    runDelete (fun _ => false) [] "downloads/a.mp3" = ([], none) ∧
    runDelete (fun _ => true) ["downloads/a.mp3"] "downloads/a.mp3"
      = (["downloads/a.mp3"], some ("Error deleting file " ++ "downloads/a.mp3")) :=
  ⟨(claim_C9_reaper.1 _ _).1,
   (claim_C9_reaper.2.1 { now := 0, files := ["downloads/a.mp3"], pending := [] }
      "downloads/a.mp3" (fun _ => false) rfl rfl).1,
   claim_C9_reaper.2.2.1 _ _ _ (by decide),
   claim_C9_reaper.2.2.2.2 _ _ _ (by decide) rfl⟩

/-- C10 counterexample: serving the URL's filename my_song.mp3 against
a directory holding exactly the stored artifact "my song.mp3" does not
return a 404 not-found response as the claim states: a missing
artifact surfaces as werkzeug NotFound, caught by the generic
exception handler, so the endpoint answers the 500 download-error
response. -/
theorem claim_C10_counterexample :
    download "my_song.mp3" ["my song.mp3"] = .downloadError ∧
    downloadStatus (download "my_song.mp3" ["my song.mp3"]) = 500 ∧
    downloadStatus (download "my_song.mp3" ["my song.mp3"]) ≠ 404 := by
  decide

/-- C10 amended: for a title with a space ("my song"), the filename
embedded in the returned download_url is my_song.mp3 — secure_filename
applied to the sanitized filename — while the artifact written to disk
is downloads/my song.mp3, the sanitized filename alone; the two names
differ, so the download_url does not reference the stored artifact,
and serving the URL's filename against a directory holding exactly the
stored artifact fails with the 500 download-error response (the
missing artifact raises werkzeug NotFound, caught by the generic
exception handler; the 404 file-expired branch is dead code). -/
theorem claim_C10_amended :
    (convert
        { is_json := true, url := some "https://youtu.be/x", format := none }
        (fun _ => .metaOk (some 100) (some "my song") .ok)
        "http://h/").response
      = .success "my song" 100 "http://h/download/my_song.mp3" ∧
    (convert
        { is_json := true, url := some "https://youtu.be/x", format := none }
        (fun _ => .metaOk (some 100) (some "my song") .ok)
        "http://h/").scheduledDeletes = ["downloads/my song.mp3"] ∧
    secure_filename "my song.mp3" ≠ "my song.mp3" ∧
    download "my_song.mp3" ["my song.mp3"] = .downloadError ∧
    downloadStatus (download "my_song.mp3" ["my song.mp3"]) = 500 := by
  decide

end YtMp3
